import Mathlib

/-!
# Blog backend: post and user controllers

A shallow embedding of `src/controllers/post.controller.js`,
`src/controllers/user.controller.js` and `src/models/post.model.js`.

Every handler `async (req, res) => ...` becomes a function
`Env → Req → Store → Outcome`:

* `Store` is the content of the two collections the handlers touch (`User`, `Post`);
* `Env` fixes what the outside world answers during the request: which record-store
  call rejects, whether `cloudinary.uploader.destroy` rejects, what the upload
  callback receives, the salt bcrypt draws and the `_id` minted for a new document;
* `Outcome` lists every `res.status(..).json(..)` call the handler makes in order,
  the session cookie, the store afterwards, and the external calls issued in order.

Library functions whose code is not part of the repository (`String.prototype.toLowerCase`,
`bcrypt.hash`, `bcrypt.compare`) are collected in `Lib` and every statement is proved for
an arbitrary `Lib`.
-/

namespace Blog

/-! ## Strings as JavaScript sees them -/

/-- Code points that are WhiteSpace or LineTerminator in ECMAScript: the characters `\s`
matches in a regular expression and `String.prototype.trim` strips. -/
def isJsSpace (c : Char) : Bool :=
  let n := c.toNat
  n == 9 || n == 10 || n == 11 || n == 12 || n == 13 || n == 32 || n == 160 ||
  n == 0x1680 || (0x2000 ≤ n && n ≤ 0x200A) || n == 0x2028 || n == 0x2029 ||
  n == 0x202F || n == 0x205F || n == 0x3000 || n == 0xFEFF

/-- The `length` of a JavaScript string: the number of UTF-16 code units. -/
def jsLength (s : String) : Nat :=
  (s.toList.map (fun c => if c.toNat < 0x10000 then 1 else 2)).sum

/-- The method `String.prototype.trim`: strip the white space at both ends. -/
def jsTrim (s : String) : String :=
  String.mk ((s.toList.dropWhile isJsSpace).reverse.dropWhile isJsSpace).reverse

/-- A character of the class `[^\s@]`. -/
def notSpaceAt (c : Char) : Bool := !isJsSpace c && c != '@'

/-- Whether `[^\s@]+\.[^\s@]+$` matches the whole of `cs`, given that every character
of `cs` is in `[^\s@]`: some dot has at least one character before and after it.
`seen` says whether a character has been consumed already. -/
def dotInside : Bool → List Char → Bool
  | _, [] => false
  | seen, c :: cs => (seen && c == '.' && !cs.isEmpty) || dotInside true cs

/-- The test `emailRegex.test(email)` of `register`, with
`emailRegex = /^[^\s@]+@[^\s@]+\.[^\s@]+$/`. -/
def emailRegexTest (s : String) : Bool :=
  match s.toList.span notSpaceAt with
  | (loc, '@' :: dom) => !loc.isEmpty && dom.all notSpaceAt && dotInside false dom
  | _ => false

/-- JavaScript truthiness of a request field that is a string when present:
`undefined` and the empty string are falsy. -/
def truthy : Option String → Bool
  | none => false
  | some s => s != ""

/-- Functions of the JavaScript run time and of bcryptjs that the handlers call. -/
structure Lib where
  /-- the method `String.prototype.toLowerCase` -/
  toLowerCase : String → String
  /-- the call `bcrypt.hash(password, salt)` -/
  hash : String → String → String
  /-- the call `bcrypt.compare(password, hash)` -/
  compare : String → String → Bool

/-! ## Data model -/

/-- The `{public_id, url}` pair of a Cloudinary asset. -/
structure Attachment where
  public_id : String
  url : String
  deriving DecidableEq, Repr

/-- A document of `postSchema` (`src/models/post.model.js`); the two timestamps are
left out, no handler reads them. -/
structure Post where
  _id : Nat
  creator : Nat
  title : String
  category : String
  description : String
  thumbnail : Attachment
  deriving DecidableEq, Repr

/-- Modelled from the spec: the user schema (`models/user.model.js` is not among the
sources). An account has an identifier, an email, a display name, a password hash, an
optional avatar attachment and the post counter `posts`, which is 0 on creation. -/
structure User where
  _id : Nat
  name : String
  email : String
  password : String
  avatar : Option Attachment
  posts : Int
  deriving DecidableEq, Repr

/-- The two collections. -/
structure Store where
  users : List User
  posts : List Post
  deriving DecidableEq, Repr

/-- The `enum` of `postSchema.category`. -/
def categoryEnum : List String :=
  ["News", "NFTs", "Research", "Lunching pool", "Airdrop", "Ventures", "Market updates",
   "Tips and Tutorials", "Earn free crypto", "Web3"]

/-- Schema validation as Mongoose runs it on `Post.create`: the `required` strings are
non-empty and `category` is in the `enum`. (`findByIdAndUpdate` does not run validators
unless asked with `runValidators`, and the handlers do not ask.) -/
def postSchemaValid (p : Post) : Bool :=
  p.title != "" && p.category != "" && categoryEnum.contains p.category && p.description != ""

/-! ## Requests, environment, outcome -/

/-- An uploaded file of `express-fileupload`. -/
structure File where
  size : Nat
  data : String
  deriving DecidableEq, Repr

/-- The object `req.files` when at least one file was uploaded. -/
structure Files where
  thumbnail : Option File
  avatar : Option File
  deriving DecidableEq, Repr

/-- What the handlers read of `req`. `user` is `req.user._id`, set by the
`protectRoute` middleware on the protected routes. -/
structure Req where
  user : Nat := 0
  id : Option Nat := none
  title : Option String := none
  category : Option String := none
  description : Option String := none
  name : Option String := none
  email : Option String := none
  password : Option String := none
  confirmPassword : Option String := none
  currentPassword : Option String := none
  newPassword : Option String := none
  confirmNewPassword : Option String := none
  files : Option Files := none

/-- What the outside world does during one request. -/
structure Env where
  /-- whether the `k`-th record-store call of the handler (counted from 0 in program
  order) rejects -/
  dbFail : Nat → Bool
  /-- whether `cloudinary.uploader.destroy` rejects -/
  destroyFails : Bool
  /-- the `result` the upload callback receives, `none` when it receives an `error` -/
  upload : Option Attachment
  /-- the salt bcrypt draws -/
  salt : String
  /-- the `_id` given to a document created during the request -/
  newId : Nat

/-- A call to one of the two external stores. -/
inductive Ev
  | destroy (public_id : String)
  | upload (data : String)
  | postFindById (id : Nat)
  | postFindByNoId
  | postCreate
  | postUpdate (id : Nat)
  | postDelete (id : Nat)
  | userFindById (id : Nat)
  | userFindOne (email : String)
  | userCreate
  | userUpdate (id : Nat)
  deriving DecidableEq, Repr

/-- Whether the call goes to the BlobStore (Cloudinary). -/
def Ev.isBlob : Ev → Bool
  | .destroy _ => true
  | .upload _ => true
  | _ => false

/-- Whether the call writes to the record store. -/
def Ev.isWrite : Ev → Bool
  | .postCreate => true
  | .postUpdate _ => true
  | .postDelete _ => true
  | .userCreate => true
  | .userUpdate _ => true
  | _ => false

/-- The `password` member of a serialised user document. -/
inductive PwField
  | absent
  | null
  | str (hash : String)
  deriving DecidableEq, Repr

/-- A user document as serialised by `res.json`. -/
structure UserView where
  _id : Nat
  name : String
  email : String
  password : PwField
  avatar : Option Attachment
  posts : Int
  deriving DecidableEq, Repr

/-- The argument of `res.json`. -/
inductive Body
  | error (msg : String)
  | message (msg : String)
  | text (s : String)
  | user (u : UserView)
  | null
  | post (p : Post)
  deriving DecidableEq, Repr

/-- One `res.status(status).json(body)` call. -/
structure Response where
  status : Nat
  body : Body
  deriving DecidableEq, Repr

/-- What a handler did. Only the first element of `sends` reaches the client: a later
`json` call on the same response throws. -/
structure Outcome where
  sends : List Response
  cookie : Option Nat
  store : Store
  trace : List Ev
  deriving DecidableEq, Repr

/-- The BlobStore calls of a request, in order. -/
def Outcome.blobCalls (o : Outcome) : List Ev := o.trace.filter Ev.isBlob

/-- A handler that returns after one `res.status(status).json(body)`. -/
def reply (s : Store) (tr : List Ev) (status : Nat) (body : Body) : Outcome :=
  { sends := [⟨status, body⟩], cookie := none, store := s, trace := tr }

/-! ## Record-store primitives -/

/-- Replace the first element that satisfies `p` by its image under `f`
(`findByIdAndUpdate` changes one document). -/
def updateFirst {α : Type} (p : α → Bool) (f : α → α) : List α → List α
  | [] => []
  | x :: xs => if p x then f x :: xs else x :: updateFirst p f xs

/-- The query `Post.findById`. -/
def Store.findPost (s : Store) (id : Nat) : Option Post := s.posts.find? (fun p => p._id == id)

/-- The query `User.findById`. -/
def Store.findUser (s : Store) (id : Nat) : Option User := s.users.find? (fun u => u._id == id)

/-- The update `Post.findByIdAndUpdate(id, fields)`. -/
def Store.updatePost (s : Store) (id : Nat) (f : Post → Post) : Store :=
  { s with posts := updateFirst (fun p => p._id == id) f s.posts }

/-- The update `User.findByIdAndUpdate(id, fields)`. -/
def Store.updateUser (s : Store) (id : Nat) (f : User → User) : Store :=
  { s with users := updateFirst (fun u => u._id == id) f s.users }

/-- The deletion `Post.findByIdAndDelete(id)`. -/
def Store.deletePost (s : Store) (id : Nat) : Store :=
  { s with posts := s.posts.eraseP (fun p => p._id == id) }

/-- The number of posts whose creator is the account `uid`. -/
def Store.postsOf (s : Store) (uid : Nat) : Nat := s.posts.countP (fun p => p.creator == uid)

/-! ## post.controller.js -/

/-- The handler `createPost`. Record-store calls: 0 `Post.create`, 1 `User.findById`,
2 `User.findByIdAndUpdate`. -/
def createPost (env : Env) (req : Req) (s : Store) : Outcome :=
  if !truthy req.title || !truthy req.category || !truthy req.description
      || req.files.isNone then
    reply s [] 422 (.error "Fill all the fields and choose thumbnail")
  else
    match req.files.bind (fun f => f.thumbnail) with
    | none =>
      -- `thumbnail.size` on `undefined` throws: outer `catch`
      reply s [] 500 (.error "Internal server error")
    | some thumbnail =>
      if thumbnail.size > 2000000 then
        reply s [] 422 (.error "Thumbnail should be less than 2mb")
      else
        match env.upload with
        | none =>
          reply s [.upload thumbnail.data] 500 (.error "An error occurred during file upload")
        | some result =>
          let newPost : Post :=
            { _id := env.newId, creator := req.user, title := req.title.getD "",
              category := req.category.getD "", description := req.description.getD "",
              thumbnail := { public_id := result.public_id, url := result.url } }
          if env.dbFail 0 || !postSchemaValid newPost then
            reply s [.upload thumbnail.data, .postCreate] 500
              (.error "An error occurred while creating the post")
          else
            let s1 : Store := { s with posts := s.posts ++ [newPost] }
            if env.dbFail 1 then
              reply s1 [.upload thumbnail.data, .postCreate, .userFindById req.user] 500
                (.error "An error occurred while creating the post")
            else
              match s1.findUser req.user with
              | none =>
                -- `currentUser.posts` on `null` throws: inner `catch`
                reply s1 [.upload thumbnail.data, .postCreate, .userFindById req.user] 500
                  (.error "An error occurred while creating the post")
              | some currentUser =>
                let userPostCount := currentUser.posts + 1
                if env.dbFail 2 then
                  reply s1 [.upload thumbnail.data, .postCreate, .userFindById req.user,
                    .userUpdate req.user] 500
                    (.error "An error occurred while creating the post")
                else
                  reply (s1.updateUser req.user (fun u => { u with posts := userPostCount }))
                    [.upload thumbnail.data, .postCreate, .userFindById req.user,
                      .userUpdate req.user] 201 (.post newPost)

/-- The handler `editPost`; `req.id` is `req.params.id`. Record-store calls:
0 `Post.findById`, 1 `Post.findByIdAndUpdate`. The update inside the upload callback has
no `try` around it: when it rejects no response is sent. -/
def editPost (env : Env) (req : Req) (s : Store) : Outcome :=
  if !truthy req.title || !truthy req.category || !truthy req.description
      || jsLength (req.description.getD "") < 12 then
    reply s [] 422 (.error "Fill all the fields")
  else
    match req.id with
    | none =>
      -- `findById(undefined)` is `findOne({_id: null})`: it resolves to `null`
      if env.dbFail 0 then
        reply s [.postFindByNoId] 500 (.error "Internal server error")
      else
        reply s [.postFindByNoId] 404 (.error "Post not found")
    | some postId =>
      if env.dbFail 0 then
        reply s [.postFindById postId] 500 (.error "Internal server error")
      else
        match s.findPost postId with
        | none => reply s [.postFindById postId] 404 (.error "Post not found")
        | some oldPost =>
          if req.user != oldPost.creator then
            reply s [.postFindById postId] 403 (.error "Cannot edit post")
          else
            let title := req.title.getD ""
            let category := req.category.getD ""
            let description := req.description.getD ""
            match req.files.bind (fun f => f.thumbnail) with
            | none =>
              if env.dbFail 1 then
                reply s [.postFindById postId, .postUpdate postId] 500
                  (.error "Internal server error")
              else
                let s1 := s.updatePost postId (fun p =>
                  { p with title := title, category := category, description := description })
                match s1.findPost postId with
                | none =>
                  reply s1 [.postFindById postId, .postUpdate postId] 400
                    (.error "Can't update post")
                | some updatedPost =>
                  reply s1 [.postFindById postId, .postUpdate postId] 200 (.post updatedPost)
            | some thumbnail =>
              if thumbnail.size > 2000000 then
                reply s [.postFindById postId] 422 (.error "Thumbnail should be less than 2mb")
              else
                let oldThumbnail := oldPost.thumbnail.public_id
                if env.destroyFails then
                  reply s [.postFindById postId, .destroy oldThumbnail] 500
                    (.error "Internal server error")
                else
                  match env.upload with
                  | none =>
                    reply s [.postFindById postId, .destroy oldThumbnail,
                      .upload thumbnail.data] 500
                      (.error "An error occurred during file upload")
                  | some result =>
                    if env.dbFail 1 then
                      { sends := [], cookie := none, store := s,
                        trace := [.postFindById postId, .destroy oldThumbnail,
                          .upload thumbnail.data, .postUpdate postId] }
                    else
                      let s1 := s.updatePost postId (fun p =>
                        { p with title := title, category := category,
                                 description := description,
                                 thumbnail := { public_id := result.public_id,
                                                url := result.url } })
                      match s1.findPost postId with
                      | none =>
                        reply s1 [.postFindById postId, .destroy oldThumbnail,
                          .upload thumbnail.data, .postUpdate postId] 400
                          (.error "Can't update post")
                      | some updatedPost =>
                        reply s1 [.postFindById postId, .destroy oldThumbnail,
                          .upload thumbnail.data, .postUpdate postId] 200 (.post updatedPost)

/-- The handler `deletePost`; `req.id` is `req.params.id`. Record-store calls:
0 `Post.findById`, 1 `Post.findByIdAndDelete`, 2 `User.findById`,
3 `User.findByIdAndUpdate`. -/
def deletePost (env : Env) (req : Req) (s : Store) : Outcome :=
  match req.id with
  | none => reply s [] 400 (.error "Post unavailable")
  | some postId =>
    if env.dbFail 0 then
      reply s [.postFindById postId] 500 (.error "Internal server error")
    else
      match s.findPost postId with
      | none => reply s [.postFindById postId] 404 (.error "Post not found")
      | some post =>
        if req.user != post.creator then
          reply s [.postFindById postId] 403 (.error "Cannot delete post")
        else
          let thumbnailPublicId := post.thumbnail.public_id
          if env.destroyFails then
            reply s [.postFindById postId, .destroy thumbnailPublicId] 500
              (.error "Error deleting image from Cloudinary")
          else if env.dbFail 1 then
            reply s [.postFindById postId, .destroy thumbnailPublicId, .postDelete postId] 500
              (.error "Error deleting post from database")
          else
            let s1 := s.deletePost postId
            if env.dbFail 2 then
              reply s1 [.postFindById postId, .destroy thumbnailPublicId, .postDelete postId,
                .userFindById req.user] 500 (.error "Error deleting post from database")
            else
              match s1.findUser req.user with
              | none =>
                -- `currentUser.posts` on `null` throws: inner `catch`
                reply s1 [.postFindById postId, .destroy thumbnailPublicId,
                  .postDelete postId, .userFindById req.user] 500
                  (.error "Error deleting post from database")
              | some currentUser =>
                let userPostCount := currentUser.posts - 1
                if env.dbFail 3 then
                  reply s1 [.postFindById postId, .destroy thumbnailPublicId,
                    .postDelete postId, .userFindById req.user, .userUpdate req.user] 500
                    (.error "Error deleting post from database")
                else
                  reply (s1.updateUser req.user (fun u => { u with posts := userPostCount }))
                    [.postFindById postId, .destroy thumbnailPublicId, .postDelete postId,
                      .userFindById req.user, .userUpdate req.user] 200
                    (.message ("Post " ++ toString postId ++ " deleted successfully"))

/-! ## Concrete data used in the examples -/

/-- An environment in which every external call succeeds. -/
def calmEnv : Env :=
  { dbFail := fun _ => false, destroyFails := false,
    upload := some { public_id := "asset-new", url := "https://cdn.example/asset-new" },
    salt := "salt", newId := 100 }

/-- A post of account 1. -/
def annPost : Post :=
  { _id := 7, creator := 1, title := "T", category := "News",
    description := "a description long enough",
    thumbnail := { public_id := "asset-old", url := "https://cdn.example/asset-old" } }

/-- Two accounts, the first with one post and an avatar. -/
def demoStore : Store :=
  { users := [ { _id := 1, name := "Ann", email := "ann@x.com", password := "h(secret1)",
                 avatar := some { public_id := "avatar-old", url := "https://cdn.example/a" },
                 posts := 1 },
               { _id := 2, name := "Bob", email := "bob@x.com", password := "h(secret2)",
                 avatar := none, posts := 0 } ],
    posts := [annPost] }

/-- The field check at the head of `editPost` passes. -/
def editFieldsOk (req : Req) : Bool :=
  truthy req.title && truthy req.category && truthy req.description
    && !(jsLength (req.description.getD "") < 12)

/-! ## user.controller.js -/

/-- Serialise a user document with the given `password` member. -/
def User.view (u : User) (pw : PwField) : UserView :=
  { _id := u._id, name := u.name, email := u.email, password := pw, avatar := u.avatar,
    posts := u.posts }

/-- The query `User.findOne({email})`. -/
def Store.findUserByEmail (s : Store) (email : String) : Option User :=
  s.users.find? (fun u => u.email == email)

/-- The query `User.findOne({email, _id: {$ne: id}})`. -/
def Store.findOtherByEmail (s : Store) (email : String) (id : Nat) : Option User :=
  s.users.find? (fun u => u.email == email && u._id != id)

/-- Modelled from the spec: `generateTokenAndSetCookie` (`lib/utils/generateToken.js` is not
among the sources) mints a session credential that binds the account identifier and hands
it to the caller as a cookie. The result is the account the cookie is bound to. -/
def generateTokenAndSetCookie (userId : Nat) : Option Nat := some userId

/-- The handler `register`. Record-store calls: 0 `User.findOne`, 1 `User.create`. -/
def register (L : Lib) (env : Env) (req : Req) (s : Store) : Outcome :=
  if !truthy req.email || !truthy req.name || !truthy req.password then
    reply s [] 422 (.message "Please fill all the fields")
  else
    let name := req.name.getD ""
    let email := req.email.getD ""
    let password := req.password.getD ""
    if !emailRegexTest email then
      reply s [] 422 (.error "Invalid Email format")
    else
      let newEmail := L.toLowerCase email
      if env.dbFail 0 then
        reply s [.userFindOne newEmail] 500 (.error "Internal server error")
      else if (s.findUserByEmail newEmail).isSome then
        reply s [.userFindOne newEmail] 422 (.error "Email already exists")
      else if jsLength (jsTrim password) < 6 then
        reply s [.userFindOne newEmail] 422
          (.error "Password must be at least 6 characters long")
      else if req.confirmPassword != some password then
        reply s [.userFindOne newEmail] 422 (.error "Password do not match")
      else
        let hashedPassword := L.hash password env.salt
        if env.dbFail 1 then
          reply s [.userFindOne newEmail, .userCreate] 500 (.error "Internal server error")
        else
          let newUser : User :=
            { _id := env.newId, name := name, email := newEmail, password := hashedPassword,
              avatar := none, posts := 0 }
          reply { s with users := s.users ++ [newUser] } [.userFindOne newEmail, .userCreate]
            201 (.text ("New user " ++ newUser.email ++ " registered successfully"))

/-- The handler `login`. Record-store call: 0 `User.findOne`. -/
def login (L : Lib) (env : Env) (req : Req) (s : Store) : Outcome :=
  if !truthy req.email || !truthy req.password then
    reply s [] 422 (.message "Please fill all the fields")
  else
    let email := req.email.getD ""
    let password := req.password.getD ""
    let newEmail := L.toLowerCase email
    if env.dbFail 0 then
      reply s [.userFindOne newEmail] 500 (.error "Internal server error")
    else
      let user := s.findUserByEmail newEmail
      let isPasswordCorrect :=
        L.compare password (match user with
          | some u => u.password
          | none => "")
      match user with
      | none => reply s [.userFindOne newEmail] 422 (.error "Invalid username or password")
      | some u =>
        if !isPasswordCorrect then
          reply s [.userFindOne newEmail] 422 (.error "Invalid username or password")
        else
          { sends := [⟨200, .user (u.view .null)⟩], cookie := generateTokenAndSetCookie u._id,
            store := s, trace := [.userFindOne newEmail] }

/-- The handler `getProfile`; `req.id` is `req.params.id`. Record-store call:
0 `User.findById(id).select("-password")`. When no user is found the handler does not
return after the 404: it goes on to `res.status(200).json(user)`, which throws because the
response is already sent, and the `catch` block then calls `res.status(500).json`. -/
def getProfile (env : Env) (req : Req) (s : Store) : Outcome :=
  if env.dbFail 0 then
    reply s [.userFindById (req.id.getD 0)] 500 (.error "Internal server error")
  else
    match req.id.bind s.findUser with
    | none =>
      { sends := [⟨404, .error "User not found"⟩, ⟨200, .null⟩,
                  ⟨500, .error "Internal server error"⟩],
        cookie := none, store := s, trace := [.userFindById (req.id.getD 0)] }
    | some user =>
      reply s [.userFindById (req.id.getD 0)] 200 (.user (user.view .absent))

/-- The asset `changeAvatar` destroys first: `user.avatar && user.avatar.public_id`. -/
def oldAvatarId (user : User) : Option String :=
  user.avatar.bind (fun a => if a.public_id != "" then some a.public_id else none)

/-- The handler `changeAvatar`. Record-store calls: 0 `User.findById`,
1 `User.findByIdAndUpdate`. -/
def changeAvatar (env : Env) (req : Req) (s : Store) : Outcome :=
  match req.files with
  | none =>
    -- `req.files.avatar` on `undefined` throws: outer `catch`
    reply s [] 500 (.error "Internal server error")
  | some files =>
    match files.avatar with
    | none => reply s [] 422 (.error "Please choose an image")
    | some avatar =>
      if env.dbFail 0 then
        reply s [.userFindById req.user] 500 (.error "Internal server error")
      else
        match s.findUser req.user with
        | none =>
          -- `user.avatar` on `null` throws: outer `catch`
          reply s [.userFindById req.user] 500 (.error "Internal server error")
        | some user =>
          let destroyed : List Ev := (oldAvatarId user).toList.map Ev.destroy
          if (oldAvatarId user).isSome && env.destroyFails then
            reply s (.userFindById req.user :: destroyed) 500 (.error "Internal server error")
          else if avatar.size > 500000 then
            reply s (.userFindById req.user :: destroyed) 422
              (.error "Profile picture too big. Should be less than 500kb")
          else
            match env.upload with
            | none =>
              reply s (.userFindById req.user :: destroyed ++ [.upload avatar.data]) 500
                (.error "An error occurred during file upload")
            | some result =>
              if env.dbFail 1 then
                reply s (.userFindById req.user :: destroyed
                    ++ [.upload avatar.data, .userUpdate req.user]) 500
                  (.error "An error occurred while creating the post")
              else
                let s1 := s.updateUser req.user (fun u =>
                  { u with avatar := some { url := result.url, public_id := result.public_id } })
                match s1.findUser req.user with
                | none =>
                  reply s1 (.userFindById req.user :: destroyed
                      ++ [.upload avatar.data, .userUpdate req.user]) 422
                    (.error "Avatar couldn't be changed.")
                | some updatedAvatar =>
                  reply s1 (.userFindById req.user :: destroyed
                      ++ [.upload avatar.data, .userUpdate req.user]) 200
                    (.user (updatedAvatar.view (.str updatedAvatar.password)))

/-- The handler `editUser`. Record-store calls: 0 `User.findById`, 1 `User.findOne`,
2 `User.findByIdAndUpdate`. -/
def editUser (L : Lib) (env : Env) (req : Req) (s : Store) : Outcome :=
  if !truthy req.name || !truthy req.email || !truthy req.currentPassword
      || !truthy req.newPassword || !truthy req.confirmNewPassword then
    reply s [] 422 (.message "Please fill all the fields")
  else
    let name := req.name.getD ""
    let email := req.email.getD ""
    let currentPassword := req.currentPassword.getD ""
    let newPassword := req.newPassword.getD ""
    if env.dbFail 0 then
      reply s [.userFindById req.user] 500 (.error "Internal server error")
    else
      match s.findUser req.user with
      | none => reply s [.userFindById req.user] 403 (.error "User not found.")
      | some user =>
        if env.dbFail 1 then
          reply s [.userFindById req.user, .userFindOne email] 500
            (.error "Internal server error")
        else if (s.findOtherByEmail email req.user).isSome then
          reply s [.userFindById req.user, .userFindOne email] 422
            (.error "Email already exists.")
        else if !L.compare currentPassword user.password then
          reply s [.userFindById req.user, .userFindOne email] 422
            (.error "Invalid current password")
        else if req.newPassword != req.confirmNewPassword then
          reply s [.userFindById req.user, .userFindOne email] 422
            (.error "New passwords do not match")
        else
          let hashedPassword := L.hash newPassword env.salt
          if env.dbFail 2 then
            reply s [.userFindById req.user, .userFindOne email, .userUpdate req.user] 500
              (.error "Internal server error")
          else
            let s1 := s.updateUser req.user (fun u =>
              { u with name := name, email := email, password := hashedPassword })
            match s1.findUser req.user with
            | none =>
              reply s1 [.userFindById req.user, .userFindOne email, .userUpdate req.user]
                200 .null
            | some updatedUser =>
              reply s1 [.userFindById req.user, .userFindOne email, .userUpdate req.user]
                200 (.user (updatedUser.view (.str updatedUser.password)))

/-- A run time for the examples: `toLowerCase` on ASCII letters, and a stand-in for bcrypt
whose hash wraps the password and ignores the salt. -/
def demoLib : Lib :=
  { toLowerCase := fun s => String.mk (s.toList.map Char.toLower),
    hash := fun pw _ => "h(" ++ pw ++ ")",
    compare := fun pw h => h == "h(" ++ pw ++ ")" }

/-- A thumbnail of 3,000,000 bytes. -/
def bigThumbnail : Files := { thumbnail := some { size := 3000000, data := "img" }, avatar := none }

/-- An avatar of 600,000 bytes. -/
def bigAvatar : Files := { thumbnail := none, avatar := some { size := 600000, data := "img" } }

/-- Account 2 asks to edit post 7 of account 1 with valid fields and a thumbnail of
3,000,000 bytes. -/
def bigEditByBob : Req :=
  { user := 2, id := some 7, title := some "T2", category := some "News",
    description := some "a description long enough", files := some bigThumbnail }

/-- Account 1 asks to create a post with a thumbnail of 3,000,000 bytes. -/
def bigCreateByAnn : Req :=
  { user := 1, title := some "T2", category := some "News",
    description := some "a description long enough", files := some bigThumbnail }

/-! ## Runs of `createPost` and `deletePost` -/

/-- A request to one of the two handlers that change the number of posts, with the
environment it runs in. -/
inductive PostCall
  | create (env : Env) (req : Req)
  | delete (env : Env) (req : Req)

/-- Run the handler of the request to its end. -/
def PostCall.run : PostCall → Store → Outcome
  | .create env req, s => createPost env req s
  | .delete env req, s => deletePost env req s

/-- Run the requests one after the other; the result is the store after the last handler
has finished. -/
def runPostCalls : List PostCall → Store → Store
  | [], s => s
  | c :: cs, s => runPostCalls cs (c.run s).store

/-- Neither of the two calls on the `User` collection that maintain the counter rejects:
`User.findById` and `User.findByIdAndUpdate`, which are record-store calls 1 and 2 of
`createPost` and 2 and 3 of `deletePost`. The calls on the `Post` collection
(`Post.create`, `Post.findById`, `Post.findByIdAndDelete`) may reject. -/
def PostCall.counterCallsCalm : PostCall → Prop
  | .create env _ => env.dbFail 1 = false ∧ env.dbFail 2 = false
  | .delete env _ => env.dbFail 2 = false ∧ env.dbFail 3 = false

/-- Every account's counter `posts` equals the number of posts it created. -/
def Store.countersExact (s : Store) : Prop :=
  ∀ u ∈ s.users, u.posts = (s.postsOf u._id : Int)

/-- No two accounts share an `_id` (the record store's primary key). -/
def Store.idsDistinct (s : Store) : Prop := (s.users.map (fun u => u._id)).Nodup

instance (s : Store) : Decidable s.countersExact := by
  unfold Store.countersExact
  infer_instance

instance (s : Store) : Decidable s.idsDistinct := by
  unfold Store.idsDistinct
  infer_instance

/-- One account without posts. -/
def annAlone : Store :=
  { users := [ { _id := 1, name := "Ann", email := "ann@x.com", password := "h(secret1)",
                 avatar := none, posts := 0 } ],
    posts := [] }

/-- Account 1 creates a post with a thumbnail of 10,000 bytes. -/
def createByAnn : Req :=
  { user := 1, title := some "T", category := some "News",
    description := some "a description long enough",
    files := some { thumbnail := some { size := 10000, data := "img" }, avatar := none } }

/-- An environment in which `User.findById`, the second record-store call of
`createPost`, rejects and everything else succeeds. -/
def findUserFails : Env := { calmEnv with dbFail := fun k => k == 1 }

/-- An environment in which `cloudinary.uploader.destroy` rejects and everything else
succeeds. -/
def destroyFailsEnv : Env := { calmEnv with destroyFails := true }

/-- Account 1 asks to delete its post 7. -/
def deleteByAnn : Req := { user := 1, id := some 7 }

/-- Account 1 asks to edit its post 7 with valid fields and a new thumbnail of 10,000
bytes. -/
def editByAnn : Req :=
  { user := 1, id := some 7, title := some "T2", category := some "Web3",
    description := some "another long description",
    files := some { thumbnail := some { size := 10000, data := "img2" }, avatar := none } }

/-- Account 1 asks to create a post in the category "Sports", which is not in the
`enum`, with a thumbnail of 10,000 bytes. -/
def sportsCreateByAnn : Req := { createByAnn with category := some "Sports" }

/-- Account 1 asks to move its post 7 to the category "Sports", without a new
thumbnail. -/
def sportsEditByAnn : Req :=
  { user := 1, id := some 7, title := some "T", category := some "Sports",
    description := some "a description long enough" }

/-- Every stored post has a category of the `enum`. -/
def Store.categoriesInEnum (s : Store) : Prop := ∀ p ∈ s.posts, p.category ∈ categoryEnum

instance (s : Store) : Decidable s.categoriesInEnum := by
  unfold Store.categoriesInEnum
  infer_instance

/-! ## The conditions of `register` -/

/-- The conditions under which C7 says `register` answers 201, in the words of the
claim: all four fields present, the email matches the address pattern, no stored account
has the same email compared case-insensitively, the trimmed password has at least 6
characters, and the password equals the confirmation. -/
def registerAcceptsSpec (L : Lib) (req : Req) (s : Store) : Prop :=
  truthy req.name = true ∧ truthy req.email = true ∧ truthy req.password = true ∧
  truthy req.confirmPassword = true ∧
  emailRegexTest (req.email.getD "") = true ∧
  (∀ u ∈ s.users, L.toLowerCase u.email ≠ L.toLowerCase (req.email.getD "")) ∧
  6 ≤ jsLength (jsTrim (req.password.getD "")) ∧
  req.confirmPassword = req.password

/-- The same conditions with the fourth as `register` tests it: no stored account has an
email equal to the lower-cased email of the request. -/
def registerAccepts (L : Lib) (req : Req) (s : Store) : Prop :=
  truthy req.name = true ∧ truthy req.email = true ∧ truthy req.password = true ∧
  truthy req.confirmPassword = true ∧
  emailRegexTest (req.email.getD "") = true ∧
  (∀ u ∈ s.users, u.email ≠ L.toLowerCase (req.email.getD "")) ∧
  6 ≤ jsLength (jsTrim (req.password.getD "")) ∧
  req.confirmPassword = req.password

instance (L : Lib) (req : Req) (s : Store) : Decidable (registerAcceptsSpec L req s) := by
  unfold registerAcceptsSpec
  infer_instance

instance (L : Lib) (req : Req) (s : Store) : Decidable (registerAccepts L req s) := by
  unfold registerAccepts
  infer_instance

/-- The account `register` creates for an accepted request. -/
def registeredUser (L : Lib) (env : Env) (req : Req) : User :=
  { _id := env.newId, name := req.name.getD "", email := L.toLowerCase (req.email.getD ""),
    password := L.hash (req.password.getD "") env.salt, avatar := none, posts := 0 }

/-- The registration of the scenario in the spec:
`register("Ann", "ann@x.com", "secret1", "secret1")`. -/
def registerAnn : Req :=
  { name := some "Ann", email := some "ann@x.com", password := some "secret1",
    confirmPassword := some "secret1" }

/-- The registration of a second account, Bob. -/
def registerBob : Req :=
  { name := some "Bob", email := some "bob@x.com", password := some "secret2",
    confirmPassword := some "secret2" }

/-- The account with `_id` 200 changes its email to "ANN@X.COM" (and its password to
"secret3"). -/
def bobTakesUpperAnn : Req :=
  { user := 200, name := some "Bob", email := some "ANN@X.COM",
    currentPassword := some "secret2", newPassword := some "secret3",
    confirmNewPassword := some "secret3" }

/-- The empty record store. -/
def emptyStore : Store := { users := [], posts := [] }

/-- An environment in which every call succeeds and a created document gets `_id` 200. -/
def calmEnv200 : Env := { calmEnv with newId := 200 }

/-- An environment in which the first record-store call of the handler rejects. -/
def firstCallFails : Env := { calmEnv with dbFail := fun k => k == 0 }

/-- The store after Bob registered (as account 200) and then changed his email to
"ANN@X.COM" through `editUser`. -/
def upperAnnStore : Store :=
  (editUser demoLib calmEnv bobTakesUpperAnn
    (register demoLib calmEnv200 registerBob emptyStore).store).store

/-! ## Runs of `register` and `editUser` -/

/-- A request to one of the two handlers that write an account's email, with the
environment it runs in. -/
inductive UserCall
  | register (env : Env) (req : Req)
  | editUser (env : Env) (req : Req)

/-- Run the handler of the request to its end. -/
def UserCall.run (L : Lib) : UserCall → Store → Outcome
  | .register env req, s => Blog.register L env req s
  | .editUser env req, s => Blog.editUser L env req s

/-- Run the requests one after the other. -/
def runUserCalls (L : Lib) : List UserCall → Store → Store
  | [], s => s
  | c :: cs, s => runUserCalls L cs (c.run L s).store

/-- Ann registers, Bob registers as account 200, Bob changes his email to
"ANN@X.COM". -/
def annBobUpper : List UserCall :=
  [.register calmEnv registerAnn, .register calmEnv200 registerBob,
   .editUser calmEnv bobTakesUpperAnn]

/-- Whether a response body carries the string `h` as the password member of a user
document. -/
def Body.exposes (b : Body) (h : String) : Bool :=
  match b with
  | .user v => v.password == .str h
  | _ => false

/-- Account 1 uploads an avatar of 10,000 bytes. -/
def avatarByAnn : Req :=
  { user := 1,
    files := some { thumbnail := none, avatar := some { size := 10000, data := "face" } } }

/-- Account 2 changes its password from "secret2" to "secret3". -/
def bobNewPassword : Req :=
  { user := 2, name := some "Bob", email := some "bob@x.com",
    currentPassword := some "secret2", newPassword := some "secret3",
    confirmNewPassword := some "secret3" }

/-- Account 1 asks to create a post with valid fields and one uploaded file, sent under
the field name `avatar`: `req.files` exists and has no `thumbnail`. -/
def createWithoutThumbnail : Req :=
  { createByAnn with
    files := some { thumbnail := none, avatar := some { size := 10000, data := "img" } } }

/-- Account 1 asks to change its avatar and uploads no file at all: `req.files` is
absent. -/
def avatarWithoutFiles : Req := { user := 1 }

/-! # Verification -/

/-! ## C1: a caller who is not the creator -/

/-- C1, as stated, fails: account 2 asks to edit post 7 of account 1 without a title;
`editPost` checks the fields before it loads the post and answers 422, not 403. -/
theorem editPost_nonOwner_missing_title :
    demoStore.findPost 7 = some annPost ∧ annPost.creator ≠ 2 ∧
    (editPost calmEnv
        { user := 2, id := some 7, category := some "News",
          description := some "a description long enough" } demoStore).sends
      = [⟨422, .error "Fill all the fields"⟩] := by
  decide

/-- C1, amended: when the caller is not the creator of the addressed post, `deletePost`
answers 403 and so does `editPost` on a request that passes its field check; `editPost`
answers 422 to a request that fails the field check, before the post is looked up. In all
three cases the store is unchanged and no external store is written to. -/
theorem nonOwner_forbidden (env : Env) (req : Req) (s : Store) (postId : Nat) (post : Post)
    (hid : req.id = some postId) (hdb : env.dbFail 0 = false)
    (hfind : s.findPost postId = some post) (hne : req.user ≠ post.creator) :
    deletePost env req s
        = reply s [.postFindById postId] 403 (.error "Cannot delete post") ∧
    (editFieldsOk req = true →
      editPost env req s = reply s [.postFindById postId] 403 (.error "Cannot edit post")) ∧
    (editFieldsOk req = false →
      editPost env req s = reply s [] 422 (.error "Fill all the fields")) := by
  refine ⟨?_, ?_, ?_⟩
  · simp [deletePost, hid, hdb, hfind, hne]
  · intro hok
    simp only [editFieldsOk, Bool.and_eq_true, Bool.not_eq_true', decide_eq_false_iff_not] at hok
    obtain ⟨⟨⟨h1, h2⟩, h3⟩, h4⟩ := hok
    simp [editPost, hid, hdb, hfind, hne, h1, h2, h3, h4]
  · intro hbad
    unfold editPost
    have : (!truthy req.title || !truthy req.category || !truthy req.description
        || decide (jsLength (req.description.getD "") < 12)) = true := by
      simp only [editFieldsOk] at hbad
      revert hbad
      cases truthy req.title <;> cases truthy req.category <;> cases truthy req.description <;>
        cases decide (jsLength (req.description.getD "") < 12) <;> simp
    rw [if_pos this]

/-- The amended C1 at a concrete request: account 2 addresses post 7 of account 1. -/
theorem nonOwner_forbidden_witness :
    deletePost calmEnv { user := 2, id := some 7 } demoStore
        = reply demoStore [.postFindById 7] 403 (.error "Cannot delete post") :=
  (nonOwner_forbidden calmEnv { user := 2, id := some 7 } demoStore 7 annPost rfl rfl
    (by decide) (by decide)).1

/-! ## C2: payloads above the ceiling -/

/-- The handler `createPost` with a thumbnail above 2,000,000 bytes: 422, untouched
store, no external call. -/
theorem createPost_oversized (env : Env) (req : Req) (s : Store) (files : Files) (t : File)
    (hf : req.files = some files) (ht : files.thumbnail = some t) (hsz : 2000000 < t.size) :
    (createPost env req s).sends.map (·.status) = [422] ∧
    (createPost env req s).store = s ∧ (createPost env req s).trace = [] := by
  unfold createPost
  split
  · simp [reply]
  · simp [hf, ht, hsz, reply]

/-- The handler `editPost` with a thumbnail above 2,000,000 bytes never reaches
Cloudinary and never writes. -/
theorem editPost_oversized (env : Env) (req : Req) (s : Store) (files : Files) (t : File)
    (hf : req.files = some files) (ht : files.thumbnail = some t) (hsz : 2000000 < t.size) :
    (editPost env req s).blobCalls = [] ∧ (editPost env req s).store = s ∧
    (∀ e ∈ (editPost env req s).trace, e.isWrite = false) ∧
    (∃ st, (editPost env req s).sends.map (·.status) = [st] ∧
      (st = 422 ∨ st = 500 ∨ st = 404 ∨ st = 403)) := by
  unfold editPost
  simp only [hf, Option.bind_some, ht]
  repeat' split
  all_goals simp_all [reply, Outcome.blobCalls, Ev.isBlob, Ev.isWrite]
  all_goals omega

/-- The handler `changeAvatar` with an avatar above 500,000 bytes never uploads and never
writes; for an account without an old asset it answers 422 and makes no BlobStore
call. -/
theorem changeAvatar_oversized (env : Env) (req : Req) (s : Store) (files : Files) (a : File)
    (hf : req.files = some files) (ha : files.avatar = some a) (hsz : 500000 < a.size) :
    (∀ e ∈ (changeAvatar env req s).trace, e.isWrite = false ∧ ∀ d, e ≠ .upload d) ∧
    (changeAvatar env req s).store = s ∧
    (∀ user, env.dbFail 0 = false → s.findUser req.user = some user →
      oldAvatarId user = none →
      (changeAvatar env req s).sends.map (·.status) = [422] ∧
      (changeAvatar env req s).blobCalls = []) := by
  unfold changeAvatar
  simp only [hf, ha]
  refine ⟨?_, ?_, ?_⟩
  · repeat' split
    all_goals simp_all [reply, Ev.isWrite]
  · repeat' split
    all_goals simp_all [reply]
  · intro user hdb hu hold
    simp [hdb, hu, hold, hsz, reply, Outcome.blobCalls, Ev.isBlob]

/-- C2, as stated, fails twice. Account 2 sends an oversized thumbnail for a post of
account 1: `editPost` answers 403, not 422. Account 1, which has an avatar, sends an
oversized avatar: `changeAvatar` destroys the old asset before it looks at the size. -/
theorem oversized_not_always_422_without_blob_call :
    (editPost calmEnv bigEditByBob demoStore).sends.map (·.status) = [403] ∧
    (changeAvatar calmEnv { user := 1, files := some bigAvatar } demoStore).sends.map (·.status)
      = [422] ∧
    (changeAvatar calmEnv { user := 1, files := some bigAvatar } demoStore).blobCalls
      = [.destroy "avatar-old"] := by
  decide

/-- C2, amended. A thumbnail above 2,000,000 bytes: `createPost` answers 422 and calls no
external store; `editPost` calls no BlobStore and writes nothing, and answers 422 when the
fields pass the check and the addressed post exists and belongs to the caller. An avatar
above 500,000 bytes: `changeAvatar` uploads nothing and writes nothing, and for an account
without an old avatar asset it answers 422 without any BlobStore call. -/
theorem oversized_payload_rejected (env : Env) (req : Req) (s : Store) (files : Files)
    (f : File) (hf : req.files = some files) :
    (files.thumbnail = some f → 2000000 < f.size →
      ((createPost env req s).sends.map (·.status) = [422] ∧
        (createPost env req s).store = s ∧ (createPost env req s).blobCalls = []) ∧
      ((editPost env req s).blobCalls = [] ∧ (editPost env req s).store = s ∧
        ∀ postId post, editFieldsOk req = true → req.id = some postId →
          env.dbFail 0 = false → s.findPost postId = some post → post.creator = req.user →
          (editPost env req s).sends.map (·.status) = [422])) ∧
    (files.avatar = some f → 500000 < f.size →
      (∀ e ∈ (changeAvatar env req s).trace, ∀ d, e ≠ .upload d) ∧
      (changeAvatar env req s).store = s ∧
      ∀ user, env.dbFail 0 = false → s.findUser req.user = some user →
        oldAvatarId user = none →
        (changeAvatar env req s).sends.map (·.status) = [422] ∧
        (changeAvatar env req s).blobCalls = []) := by
  constructor
  · intro ht hsz
    obtain ⟨c1, c2, c3⟩ := createPost_oversized env req s files f hf ht hsz
    obtain ⟨e1, e2, _, _⟩ := editPost_oversized env req s files f hf ht hsz
    refine ⟨⟨c1, c2, by simp [Outcome.blobCalls, c3]⟩, e1, e2, ?_⟩
    intro postId post hok hid hdb hfind hown
    simp only [editFieldsOk, Bool.and_eq_true, Bool.not_eq_true', decide_eq_false_iff_not] at hok
    obtain ⟨⟨⟨h1, h2⟩, h3⟩, h4⟩ := hok
    simp [editPost, hid, hdb, hfind, hown, h1, h2, h3, h4, hf, ht, hsz, reply]
  · intro ha hsz
    obtain ⟨a1, a2, a3⟩ := changeAvatar_oversized env req s files f hf ha hsz
    exact ⟨fun e he => (a1 e he).2, a2, a3⟩

/-- The amended C2 at a concrete request: account 1 sends a thumbnail of 3,000,000 bytes
to `createPost`. -/
theorem oversized_payload_rejected_witness :
    (createPost calmEnv bigCreateByAnn demoStore).sends.map (·.status) = [422] ∧
    (createPost calmEnv bigCreateByAnn demoStore).store = demoStore ∧
    (createPost calmEnv bigCreateByAnn demoStore).blobCalls = [] :=
  ((oversized_payload_rejected calmEnv bigCreateByAnn demoStore bigThumbnail
    { size := 3000000, data := "img" } rfl).1 rfl (by decide)).1

/-! ## C3: the post counter -/

/-- With distinct keys, `updateFirst` on a key is a `map`. -/
theorem updateFirst_posts_eq_map (c : Nat) (n : Int) (l : List User)
    (hnd : (l.map (fun u => u._id)).Nodup) :
    updateFirst (fun u => u._id == c) (fun u => { u with posts := n }) l
      = l.map (fun u => if u._id = c then { u with posts := n } else u) := by
  induction l with
  | nil => rfl
  | cons x xs ih =>
    simp only [List.map_cons, List.nodup_cons] at hnd
    by_cases hx : x._id = c
    · have hxs : ∀ u ∈ xs, u._id ≠ c := by
        intro u hu huc
        exact hnd.1 (List.mem_map.mpr ⟨u, hu, by rw [huc, hx]⟩)
      have hmap : xs.map (fun u => if u._id = c then { u with posts := n } else u) = xs := by
        conv_rhs => rw [← List.map_id xs]
        apply List.map_congr_left
        intro u hu
        simp [hxs u hu]
      simp [updateFirst, hx, hmap]
    · simp [updateFirst, hx, ih hnd.2]

/-- Erasing the first match of `p` lowers the count of `q` by one exactly when that
match satisfies `q`. -/
theorem countP_eraseP_of_find {α : Type} (p q : α → Bool) (l : List α) (x : α)
    (hx : l.find? p = some x) :
    (l.eraseP p).countP q + (if q x then 1 else 0) = l.countP q := by
  induction l with
  | nil => simp at hx
  | cons y ys ih =>
    by_cases hy : p y = true
    · have : y = x := by simpa [List.find?, hy] using hx
      subst this
      by_cases hq : q y = true <;> simp [hy, hq, List.countP_cons]
    · have hx2 : ys.find? p = some x := by simpa [List.find?, hy] using hx
      have := ih hx2
      by_cases hq : q y = true <;> simp [hy, hq, List.countP_cons] <;> omega

/-- The handler `createPost` keeps the counters exact when neither of its calls on the
`User` collection rejects; `Post.create` and the upload may fail. -/
theorem createPost_keeps_counters (env : Env) (req : Req) (s : Store)
    (h1 : env.dbFail 1 = false) (h2 : env.dbFail 2 = false)
    (hd : s.idsDistinct) (hc : s.countersExact) :
    (createPost env req s).store.idsDistinct ∧ (createPost env req s).store.countersExact := by
  unfold createPost
  split
  · exact ⟨hd, hc⟩
  split
  · exact ⟨hd, hc⟩
  split
  · exact ⟨hd, hc⟩
  split
  · exact ⟨hd, hc⟩
  rename_i thumbnail _ _ _ result _
  simp only [h1, h2, Bool.false_eq_true, if_false]
  split
  · exact ⟨hd, hc⟩
  simp only [Store.findUser]
  split
  · -- the caller has no account: the post is stored, no account is the creator
    rename_i hnone
    refine ⟨hd, ?_⟩
    intro u hu
    have hne : u._id ≠ req.user := by
      intro h
      have := List.find?_eq_none.mp hnone u hu
      simp [h] at this
    have := hc u hu
    simp only [reply, Store.postsOf, List.countP_append, List.countP_cons, List.countP_nil]
      at this ⊢
    simp [Ne.symm hne, this]
  · rename_i cu hcu
    have hcu_mem : cu ∈ s.users := List.mem_of_find?_eq_some hcu
    have hcu_id : cu._id = req.user := by
      have := List.find?_some hcu
      simpa using this
    simp only [reply, Store.updateUser, Store.idsDistinct, Store.countersExact, Store.postsOf]
    rw [updateFirst_posts_eq_map _ _ _ hd]
    constructor
    · have : (List.map (fun u => u._id)
          (List.map (fun u => if u._id = req.user then { u with posts := cu.posts + 1 } else u)
            s.users)) = s.users.map (fun u => u._id) := by
        rw [List.map_map]
        apply List.map_congr_left
        intro u _
        by_cases h : u._id = req.user <;> simp [h]
      rw [this]
      exact hd
    · intro v hv
      obtain ⟨u, hu, rfl⟩ := List.mem_map.mp hv
      have hu_eq := hc u hu
      simp only [Store.postsOf] at hu_eq
      by_cases h : u._id = req.user
      · have huc : u = cu :=
          List.inj_on_of_nodup_map hd hu hcu_mem (by rw [h, hcu_id])
        subst huc
        simp [h, List.countP_append, List.countP_cons, hu_eq]
      · simp [h, List.countP_append, List.countP_cons, Ne.symm h, hu_eq]

/-- The handler `deletePost` keeps the counters exact when neither of its calls on the
`User` collection rejects; `Post.findById`, `Post.findByIdAndDelete` and the `destroy` may
fail. -/
theorem deletePost_keeps_counters (env : Env) (req : Req) (s : Store)
    (h2 : env.dbFail 2 = false) (h3 : env.dbFail 3 = false)
    (hd : s.idsDistinct) (hc : s.countersExact) :
    (deletePost env req s).store.idsDistinct ∧ (deletePost env req s).store.countersExact := by
  unfold deletePost
  split
  · exact ⟨hd, hc⟩
  rw [h2, h3]
  simp only [Bool.false_eq_true]
  simp only [if_false]
  split
  · exact ⟨hd, hc⟩
  split
  · exact ⟨hd, hc⟩
  rename_i postId _ _ _ post hpost
  split
  · exact ⟨hd, hc⟩
  rename_i hown
  have hown : post.creator = req.user := by
    have h : req.user = post.creator := by simpa using hown
    exact h.symm
  split
  · exact ⟨hd, hc⟩
  split
  · exact ⟨hd, hc⟩
  have hcount : ∀ uid : Nat,
      ((s.deletePost postId).postsOf uid : Int)
        = (s.postsOf uid : Int) - (if post.creator = uid then 1 else 0) := by
    intro uid
    have := countP_eraseP_of_find (fun p : Post => p._id == postId)
      (fun p : Post => p.creator == uid) s.posts post hpost
    simp only [Store.postsOf, Store.deletePost]
    by_cases h : post.creator = uid
    · simp only [h, beq_self_eq_true, if_true] at this ⊢
      omega
    · simp only [beq_iff_eq, h, if_false] at this ⊢
      omega
  simp only [Store.findUser]
  split
  · rename_i hnone
    refine ⟨hd, ?_⟩
    intro u hu
    have hne : post.creator ≠ u._id := by
      intro h
      have := List.find?_eq_none.mp hnone u hu
      simp [Store.deletePost, ← h, hown] at this
    have := hc u hu
    simp only [reply, hcount u._id, hne, if_false]
    simpa using this
  · rename_i cu hcu
    have hcu_mem : cu ∈ s.users := List.mem_of_find?_eq_some hcu
    have hcu_id : cu._id = req.user := by
      have := List.find?_some hcu
      simpa using this
    simp only [reply, Store.updateUser, Store.idsDistinct, Store.countersExact]
    have hd2 : ((s.deletePost postId).users.map (fun u => u._id)).Nodup := hd
    rw [updateFirst_posts_eq_map _ _ _ hd2]
    constructor
    · have : (List.map (fun u => u._id)
          (List.map (fun u => if u._id = req.user then { u with posts := cu.posts - 1 } else u)
            (s.deletePost postId).users)) = s.users.map (fun u => u._id) := by
        rw [List.map_map]
        apply List.map_congr_left
        intro u _
        by_cases h : u._id = req.user <;> simp [h]
      rw [this]
      exact hd
    · intro v hv
      obtain ⟨u, hu, rfl⟩ := List.mem_map.mp hv
      have hu_eq := hc u hu
      have hpo : ∀ (us : List User) (uid : Nat),
          Store.postsOf { users := us, posts := (s.deletePost postId).posts } uid
            = (s.deletePost postId).postsOf uid := fun _ _ => rfl
      by_cases h : u._id = req.user
      · have huc : u = cu :=
          List.inj_on_of_nodup_map hd hu hcu_mem (by rw [h, hcu_id])
        subst huc
        simp only [h, if_true, hpo, hcount, hown]
        rw [← h, hu_eq]
      · have hne : ¬ post.creator = u._id := by
          rw [hown]
          exact Ne.symm h
        simp only [h, if_false, hpo, hcount, hne]
        simpa using hu_eq

/-- C3, as stated, fails. Account 1 has no posts and counter 0. Its `createPost` stores a
post and then `User.findById` rejects: the handler answers 500 and the counter stays at 0
with one post stored. A later `deletePost` of that post, with no failure, leaves the
counter at -1 with no post stored. -/
theorem counter_drifts_when_lookup_rejects :
    annAlone.countersExact ∧ annAlone.idsDistinct ∧
    (createPost findUserFails createByAnn annAlone).sends.map (·.status) = [500] ∧
    ¬ (createPost findUserFails createByAnn annAlone).store.countersExact ∧
    (createPost findUserFails createByAnn annAlone).store.users.map (·.posts) = [0] ∧
    (createPost findUserFails createByAnn annAlone).store.postsOf 1 = 1 ∧
    (runPostCalls [.create findUserFails createByAnn,
        .delete calmEnv { user := 1, id := some 100 }] annAlone).users.map (·.posts) = [-1] ∧
    (runPostCalls [.create findUserFails createByAnn,
        .delete calmEnv { user := 1, id := some 100 }] annAlone).postsOf 1 = 0 := by
  decide

/-- C3, amended: start from a store whose accounts have distinct identifiers and whose
counters are exact; run any sequence of `createPost` and `deletePost` requests in which
neither `User.findById` nor `User.findByIdAndUpdate` rejects. The upload, the asset
deletion, `Post.create`, `Post.findById` and `Post.findByIdAndDelete` may fail, and a
handler may answer with an error. Then every counter is again the number of posts of its
account, and is not negative. -/
theorem counters_exact_after_run (calls : List PostCall) (s : Store)
    (hcalm : ∀ c ∈ calls, c.counterCallsCalm) (hd : s.idsDistinct)
    (hc : s.countersExact) :
    (runPostCalls calls s).countersExact ∧
    ∀ u ∈ (runPostCalls calls s).users, 0 ≤ u.posts := by
  have key : ∀ (calls : List PostCall) (s : Store), (∀ c ∈ calls, c.counterCallsCalm) →
      s.idsDistinct → s.countersExact →
      (runPostCalls calls s).idsDistinct ∧ (runPostCalls calls s).countersExact := by
    intro calls
    induction calls with
    | nil => intro s _ hd hc; exact ⟨hd, hc⟩
    | cons c cs ih =>
      intro s hcalm hd hc
      have hstep : (c.run s).store.idsDistinct ∧ (c.run s).store.countersExact := by
        have hcc := hcalm c (List.mem_cons_self _ _)
        cases c with
        | create env req => exact createPost_keeps_counters env req s hcc.1 hcc.2 hd hc
        | delete env req => exact deletePost_keeps_counters env req s hcc.1 hcc.2 hd hc
      exact ih _ (fun c hc => hcalm c (List.mem_cons_of_mem _ hc)) hstep.1 hstep.2
  have h := (key calls s hcalm hd hc).2
  refine ⟨h, ?_⟩
  intro u hu
  rw [h u hu]
  exact Int.natCast_nonneg _

/-- The amended C3 on a run of four requests of account 1: a `createPost` whose
`Post.create` rejects, a `createPost` that succeeds, a `deletePost` whose `Post.findById`
rejects, and a `deletePost` that succeeds. -/
theorem counters_exact_after_run_witness :
    (runPostCalls [.create firstCallFails createByAnn, .create calmEnv createByAnn,
        .delete firstCallFails { user := 1, id := some 100 },
        .delete calmEnv { user := 1, id := some 100 }] annAlone).countersExact ∧
    ∀ u ∈ (runPostCalls [.create firstCallFails createByAnn, .create calmEnv createByAnn,
        .delete firstCallFails { user := 1, id := some 100 },
        .delete calmEnv { user := 1, id := some 100 }] annAlone).users, 0 ≤ u.posts :=
  counters_exact_after_run
    [.create firstCallFails createByAnn, .create calmEnv createByAnn,
     .delete firstCallFails { user := 1, id := some 100 },
     .delete calmEnv { user := 1, id := some 100 }] annAlone
    (by
      intro c hc
      simp only [List.mem_cons, List.mem_singleton, List.not_mem_nil, or_false] at hc
      rcases hc with rfl | rfl | rfl | rfl <;> exact ⟨rfl, rfl⟩)
    (by decide) (by decide)

/-! ## C4: `deletePost` when the asset cannot be deleted -/

/-- The external calls of `deletePost`: either it writes nothing, or `destroy` did not
reject and the calls are the lookup, the `destroy`, the `Post.findByIdAndDelete` and then
calls on the `User` collection only. -/
theorem deletePost_trace_shape (env : Env) (req : Req) (s : Store) :
    (∀ e ∈ (deletePost env req s).trace, e.isWrite = false) ∨
    (env.destroyFails = false ∧ ∃ postId pid suf,
      (deletePost env req s).trace
        = Ev.postFindById postId :: Ev.destroy pid :: Ev.postDelete postId :: suf ∧
      ∀ e ∈ suf, ∀ i, e ≠ Ev.postDelete i) := by
  unfold deletePost
  cases req.id with
  | none => left; simp [reply]
  | some postId =>
    by_cases h0 : env.dbFail 0 = true
    · left; simp [h0, reply, Ev.isWrite]
    · cases hf : s.findPost postId with
      | none => left; simp [h0, hf, reply, Ev.isWrite]
      | some post =>
        by_cases hown : (req.user != post.creator) = true
        · left; simp [h0, hf, hown, reply, Ev.isWrite]
        · by_cases hdf : env.destroyFails = true
          · left; simp [h0, hf, hown, hdf, reply, Ev.isWrite]
          · right
            refine ⟨by simpa using hdf, postId, post.thumbnail.public_id, ?_⟩
            simp only [h0, hf, hown, hdf, Bool.false_eq_true, if_false]
            repeat' split
            all_goals exact ⟨_, rfl, by simp⟩

/-- C4: the owner asks to delete a post and `cloudinary.uploader.destroy` rejects. The
handler answers 500 "Error deleting image from Cloudinary", the store (the post record
and the owner's counter) is unchanged, and the only calls issued are the lookup and the
`destroy`. In any run of `deletePost` at all, a `Post.findByIdAndDelete` call is
preceded by a `destroy` that did not reject and by no other write. -/
theorem deletePost_asset_delete_failed (env : Env) (req : Req) (s : Store) (postId : Nat)
    (post : Post) (hid : req.id = some postId) (hdb : env.dbFail 0 = false)
    (hfind : s.findPost postId = some post) (hown : post.creator = req.user)
    (hfail : env.destroyFails = true) :
    deletePost env req s
      = reply s [.postFindById postId, .destroy post.thumbnail.public_id] 500
          (.error "Error deleting image from Cloudinary") ∧
    (deletePost env req s).store.findPost postId = some post ∧
    (deletePost env req s).store.users = s.users ∧
    ∀ (env1 : Env) (req1 : Req) (s1 : Store) (id : Nat),
      Ev.postDelete id ∈ (deletePost env1 req1 s1).trace →
      env1.destroyFails = false ∧
      ∃ pid pre suf, (deletePost env1 req1 s1).trace = pre ++ Ev.postDelete id :: suf ∧
        Ev.destroy pid ∈ pre ∧ ∀ e ∈ pre, e.isWrite = false := by
  have h1 : deletePost env req s
      = reply s [.postFindById postId, .destroy post.thumbnail.public_id] 500
          (.error "Error deleting image from Cloudinary") := by
    simp [deletePost, hid, hdb, hfind, hown, hfail]
  refine ⟨h1, by rw [h1]; exact hfind, by rw [h1]; rfl, ?_⟩
  intro env1 req1 s1 id hmem
  rcases deletePost_trace_shape env1 req1 s1 with hnone | ⟨hdf, pid1, pid, suf, htr, hsuf⟩
  · have := hnone _ hmem
    simp [Ev.isWrite] at this
  · refine ⟨hdf, pid, [Ev.postFindById pid1, Ev.destroy pid], suf, ?_, by simp, ?_⟩
    · rw [htr] at hmem ⊢
      simp only [List.mem_cons] at hmem
      rcases hmem with h | h | h | h
      · cases h
      · cases h
      · cases h
        rfl
      · exact absurd rfl (hsuf _ h id)
    · intro e he
      simp only [List.mem_cons, List.mem_singleton, List.not_mem_nil, or_false] at he
      rcases he with rfl | rfl <;> rfl

/-- C4 at a concrete request: account 1 deletes its post 7 while Cloudinary rejects. -/
theorem deletePost_asset_delete_failed_witness :
    deletePost destroyFailsEnv deleteByAnn demoStore
      = reply demoStore [.postFindById 7, .destroy "asset-old"] 500
          (.error "Error deleting image from Cloudinary") :=
  (deletePost_asset_delete_failed destroyFailsEnv deleteByAnn demoStore 7 annPost rfl rfl
    (by decide) rfl rfl).1

/-! ## C5: `editPost` with a new thumbnail -/

/-- After `updateFirst`, the first match is the image of the old first match. -/
theorem find_updateFirst {α : Type} (p : α → Bool) (f : α → α) (l : List α) (x : α)
    (hx : l.find? p = some x) (hp : p (f x) = true) :
    (updateFirst p f l).find? p = some (f x) := by
  induction l with
  | nil => simp at hx
  | cons y ys ih =>
    by_cases hy : p y = true
    · have : y = x := by simpa [List.find?, hy] using hx
      subst this
      simp [updateFirst, hy, List.find?, hp]
    · have hx2 : ys.find? p = some x := by simpa [List.find?, hy] using hx
      simp [updateFirst, hy, List.find?, ih hx2]

/-- C5, as stated, fails: the owner sends a new thumbnail and the `destroy` of the old
asset rejects. The handler answers 500 and the only BlobStore call is the `destroy`; no
upload follows. -/
theorem editPost_no_upload_after_failed_destroy :
    editFieldsOk editByAnn = true ∧ demoStore.findPost 7 = some annPost ∧
    annPost.creator = editByAnn.user ∧
    (editPost destroyFailsEnv editByAnn demoStore).blobCalls = [.destroy "asset-old"] ∧
    (editPost destroyFailsEnv editByAnn demoStore).blobCalls
      ≠ [.destroy "asset-old", .upload "img2"] ∧
    (editPost destroyFailsEnv editByAnn demoStore).sends.map (·.status) = [500] := by
  decide

/-- C5, amended: the owner edits a post with valid fields and a new thumbnail within the
ceiling. The first BlobStore call is the `destroy` of the old asset id. If it rejects, no
upload is made, the store is unchanged and the answer is 500. Otherwise the upload of the
new payload follows, and these two are the only BlobStore calls; if the upload fails the
store is unchanged and the answer is 500; if it succeeds `Post.findByIdAndUpdate` is
issued after it, and when that call goes through the record holds the new fields and the
new `(public_id, url)` pair and the answer is 200 with the updated post. -/
theorem editPost_replace_thumbnail (env : Env) (req : Req) (s : Store) (postId : Nat)
    (post : Post) (files : Files) (t : File)
    (hok : editFieldsOk req = true) (hid : req.id = some postId)
    (hdb : env.dbFail 0 = false) (hfind : s.findPost postId = some post)
    (hown : post.creator = req.user) (hf : req.files = some files)
    (ht : files.thumbnail = some t) (hsz : t.size ≤ 2000000) :
    (env.destroyFails = true →
      editPost env req s
        = reply s [.postFindById postId, .destroy post.thumbnail.public_id] 500
            (.error "Internal server error")) ∧
    (env.destroyFails = false → env.upload = none →
      editPost env req s
        = reply s [.postFindById postId, .destroy post.thumbnail.public_id, .upload t.data]
            500 (.error "An error occurred during file upload")) ∧
    (env.destroyFails = false → ∀ r, env.upload = some r →
      (editPost env req s).trace
        = [.postFindById postId, .destroy post.thumbnail.public_id, .upload t.data,
           .postUpdate postId] ∧
      (editPost env req s).blobCalls = [.destroy post.thumbnail.public_id, .upload t.data] ∧
      (env.dbFail 1 = true →
        (editPost env req s).store = s ∧ (editPost env req s).sends = []) ∧
      (env.dbFail 1 = false →
        (editPost env req s).store
          = s.updatePost postId (fun p =>
              { p with title := req.title.getD "", category := req.category.getD "",
                       description := req.description.getD "",
                       thumbnail := { public_id := r.public_id, url := r.url } }) ∧
        (editPost env req s).sends
          = [⟨200, .post { post with title := req.title.getD "",
                                     category := req.category.getD "",
                                     description := req.description.getD "",
                                     thumbnail := { public_id := r.public_id,
                                                    url := r.url } }⟩])) := by
  simp only [editFieldsOk, Bool.and_eq_true, Bool.not_eq_true', decide_eq_false_iff_not] at hok
  obtain ⟨⟨⟨h1, h2⟩, h3⟩, h4⟩ := hok
  have hsz2 : ¬ t.size > 2000000 := by omega
  have hpid : post._id = postId := by
    have := List.find?_some hfind
    simpa using this
  refine ⟨?_, ?_, ?_⟩
  · intro hdf
    simp [editPost, hid, hdb, hfind, hown, h1, h2, h3, h4, hf, ht, hsz2, hdf]
  · intro hdf hup
    simp [editPost, hid, hdb, hfind, hown, h1, h2, h3, h4, hf, ht, hsz2, hdf, hup]
  · intro hdf r hup
    have hfound := find_updateFirst (fun p : Post => p._id == postId)
      (fun p => { p with title := req.title.getD "", category := req.category.getD "",
                         description := req.description.getD "",
                         thumbnail := { public_id := r.public_id, url := r.url } })
      s.posts post hfind (by simp [hpid])
    by_cases hu : env.dbFail 1 = true
    · simp [editPost, hid, hdb, hfind, hown, h1, h2, h3, h4, hf, ht, hsz2, hdf, hup, hu,
        Outcome.blobCalls, Ev.isBlob]
    · have hu2 : env.dbFail 1 = false := by simpa using hu
      have hfind2 : s.posts.find? (fun p : Post => p._id == postId) = some post := hfind
      simp [editPost, hid, hdb, hown, h1, h2, h3, h4, hf, ht, hsz2, hdf, hup, hu2,
        Outcome.blobCalls, Ev.isBlob, Store.findPost, Store.updatePost, hfind2, hfound, reply]

/-- The amended C5 at a concrete request: account 1 replaces the thumbnail of its post 7
and every external call succeeds. -/
theorem editPost_replace_thumbnail_witness :
    (editPost calmEnv editByAnn demoStore).blobCalls
      = [.destroy "asset-old", .upload "img2"] ∧
    (editPost calmEnv editByAnn demoStore).sends.map (·.status) = [200] := by
  have h := (editPost_replace_thumbnail calmEnv editByAnn demoStore 7 annPost
    { thumbnail := some { size := 10000, data := "img2" }, avatar := none }
    { size := 10000, data := "img2" } (by decide) rfl rfl (by decide) rfl rfl rfl
    (by decide)).2.2 rfl _ rfl
  exact ⟨h.2.1, by rw [(h.2.2.2 rfl).2]; rfl⟩

/-! ## C6: categories outside the `enum` -/

/-- C6, as stated, fails for `createPost`: with the category "Sports" and otherwise valid
input the handler uploads the thumbnail first; `Post.create` then rejects the document and
the answer is 500, not 422. -/
theorem unknown_category_uploaded_then_500 :
    "Sports" ∉ categoryEnum ∧
    (createPost calmEnv sportsCreateByAnn demoStore).sends.map (·.status) = [500] ∧
    (createPost calmEnv sportsCreateByAnn demoStore).blobCalls = [.upload "img"] ∧
    (createPost calmEnv sportsCreateByAnn demoStore).store = demoStore := by
  decide

/-- What `editPost` does with the same category (the part that the amended C6 leaves out):
`findByIdAndUpdate` runs no validator, the answer is 200 and the post is stored with the
category "Sports". -/
theorem editPost_stores_unknown_category :
    (editPost calmEnv sportsEditByAnn demoStore).sends.map (·.status) = [200] ∧
    (editPost calmEnv sportsEditByAnn demoStore).store.posts.map (·.category) = ["Sports"] := by
  decide

/-- The handler `createPost` stores at most one new post, and only one that passes the schema. -/
theorem createPost_posts (env : Env) (req : Req) (s : Store) :
    (createPost env req s).store.posts = s.posts ∨
    ∃ p, postSchemaValid p = true ∧ p.category = req.category.getD "" ∧
      (createPost env req s).store.posts = s.posts ++ [p] := by
  unfold createPost
  split
  · left; rfl
  split
  · left; rfl
  split
  · left; rfl
  split
  · left; rfl
  dsimp only
  split
  · left; rfl
  rename_i hv
  simp only [Bool.or_eq_true, Bool.not_eq_true', not_or, Bool.not_eq_false] at hv
  right
  refine ⟨_, hv.2, rfl, ?_⟩
  repeat' split
  all_goals rfl

/-- C6, amended to what `createPost` does: a request whose category is not in the `enum`
stores nothing. It is answered 422, with no external call, when a field or the file set
is missing or the thumbnail is too large, and 500 otherwise; when the other fields pass and
the upload succeeds, the thumbnail is uploaded first and `Post.create` then rejects the
document. Hence `createPost` never adds a post whose category is outside the `enum`. -/
theorem createPost_unknown_category (env : Env) (req : Req) (s : Store) (c : String)
    (hc : req.category = some c) (hbad : c ∉ categoryEnum) :
    (createPost env req s).store = s ∧
    (∃ st, (createPost env req s).sends.map (·.status) = [st] ∧ (st = 422 ∨ st = 500) ∧
      (st = 422 → (createPost env req s).trace = [])) ∧
    (∀ t r, truthy req.title = true → c ≠ "" → truthy req.description = true →
      req.files.bind (fun f => f.thumbnail) = some t → t.size ≤ 2000000 →
      env.upload = some r →
      createPost env req s
        = reply s [.upload t.data, .postCreate] 500
            (.error "An error occurred while creating the post")) ∧
    (∀ (env1 : Env) (req1 : Req) (s1 : Store), s1.categoriesInEnum →
      (createPost env1 req1 s1).store.categoriesInEnum) := by
  have hinv : ∀ p : Post, p.category = c → postSchemaValid p = false := by
    intro p hp
    simp [postSchemaValid, hp, hbad]
  have hshape : (createPost env req s).store = s ∧
      ∃ st, (createPost env req s).sends.map (·.status) = [st] ∧ (st = 422 ∨ st = 500) ∧
        (st = 422 → (createPost env req s).trace = []) := by
    unfold createPost
    split
    · simp [reply]
    split
    · simp [reply]
    split
    · simp [reply]
    split
    · simp [reply]
    dsimp only
    rw [if_pos (by simp [hinv _ (show (Post.mk env.newId req.user (req.title.getD "")
      (req.category.getD "") (req.description.getD "") _).category = c by simp [hc])])]
    simp [reply]
  refine ⟨hshape.1, hshape.2, ?_, ?_⟩
  · intro t r h1 h2 h3 hft hsz hup
    have hsz2 : ¬ t.size > 2000000 := by omega
    have hfs : req.files.isNone = false := by
      cases hfiles : req.files with
      | none => simp [hfiles] at hft
      | some f => rfl
    have hcat : truthy req.category = true := by simp [hc, truthy, h2]
    unfold createPost
    rw [if_neg (by simp [h1, hcat, h3, hfs])]
    simp only [hft, hsz2, hup, if_false]
    rw [if_pos (by simp [hinv _ (show (Post.mk env.newId req.user (req.title.getD "")
      (req.category.getD "") (req.description.getD "") _).category = c by simp [hc])])]
  · intro env1 req1 s1 hs1 p hp
    rcases createPost_posts env1 req1 s1 with h | ⟨q, hq, _, h⟩
    · rw [h] at hp
      exact hs1 p hp
    · rw [h, List.mem_append, List.mem_singleton] at hp
      rcases hp with hp | rfl
      · exact hs1 p hp
      · simp only [postSchemaValid, Bool.and_eq_true] at hq
        simpa using hq.1.2

/-- The amended C6 at a concrete request: account 1 asks for the category "Sports". -/
theorem createPost_unknown_category_witness :
    (createPost calmEnv sportsCreateByAnn demoStore).store = demoStore :=
  (createPost_unknown_category calmEnv sportsCreateByAnn demoStore "Sports" rfl
    (by decide)).1

/-! ## C7: `register` -/

/-- C7, as stated, fails in two ways. After Bob changed his email to "ANN@X.COM" through
`editUser`, the registration of "ann@x.com" is answered 201 although a stored account
has the same email compared case-insensitively: `register` looks for the lower-cased
email only. And when `User.findOne` rejects, a registration that meets every condition is
answered 500, neither 201 nor 422. -/
theorem register_differs_from_stated_conditions :
    upperAnnStore.users.map (·.email) = ["ANN@X.COM"] ∧
    ¬ registerAcceptsSpec demoLib registerAnn upperAnnStore ∧
    (register demoLib calmEnv registerAnn upperAnnStore).sends.map (·.status) = [201] ∧
    registerAcceptsSpec demoLib registerAnn emptyStore ∧
    (register demoLib firstCallFails registerAnn emptyStore).sends.map (·.status) = [500] := by
  decide

/-- When no record-store call rejects, `register` either accepts, answers 201 and appends
the new account, or refuses with 422 and leaves the store as it was. -/
theorem register_cases (L : Lib) (env : Env) (req : Req) (s : Store)
    (hcalm : ∀ k, env.dbFail k = false) :
    (registerAccepts L req s ∧
      register L env req s
        = reply { s with users := s.users ++ [registeredUser L env req] }
            [.userFindOne (L.toLowerCase (req.email.getD "")), .userCreate] 201
            (.text ("New user " ++ L.toLowerCase (req.email.getD "")
              ++ " registered successfully"))) ∨
    (¬ registerAccepts L req s ∧
      (register L env req s).sends.map (·.status) = [422] ∧
      (register L env req s).store = s) := by
  unfold register
  by_cases hf : (!truthy req.email || !truthy req.name || !truthy req.password) = true
  · right
    rw [if_pos hf]
    refine ⟨?_, rfl, rfl⟩
    intro h
    obtain ⟨h1, h2, h3, _⟩ := h
    simp [h1, h2, h3] at hf
  rw [if_neg hf]
  simp only [Bool.or_eq_true, Bool.not_eq_true', not_or, Bool.not_eq_false] at hf
  obtain ⟨⟨he, hn⟩, hp⟩ := hf
  dsimp only
  by_cases hre : emailRegexTest (req.email.getD "") = true
  swap
  · right
    rw [if_pos (by simpa using hre)]
    exact ⟨fun h => hre h.2.2.2.2.1, rfl, rfl⟩
  rw [if_neg (by simp [hre]), if_neg (by simp [hcalm 0])]
  cases hfind : s.findUserByEmail (L.toLowerCase (req.email.getD "")) with
  | some u =>
    right
    rw [if_pos (by simp)]
    refine ⟨?_, rfl, rfl⟩
    intro h
    have hmem : u ∈ s.users := List.mem_of_find?_eq_some hfind
    have hue : u.email = L.toLowerCase (req.email.getD "") := by
      have := List.find?_some hfind
      simpa using this
    exact h.2.2.2.2.2.1 u hmem hue
  | none =>
    have hfree : ∀ u ∈ s.users, u.email ≠ L.toLowerCase (req.email.getD "") := by
      intro u hu hue
      have := List.find?_eq_none.mp hfind u hu
      simp [hue] at this
    rw [if_neg (by simp)]
    by_cases hlen : jsLength (jsTrim (req.password.getD "")) < 6
    · right
      rw [if_pos hlen]
      refine ⟨?_, rfl, rfl⟩
      intro h
      have := h.2.2.2.2.2.2.1
      omega
    rw [if_neg hlen]
    obtain ⟨pw, hpw⟩ : ∃ pw, req.password = some pw := by
      cases hq : req.password with
      | none => simp [hq, truthy] at hp
      | some pw => exact ⟨pw, rfl⟩
    by_cases hconf : (req.confirmPassword != some (req.password.getD "")) = true
    · right
      rw [if_pos hconf]
      refine ⟨?_, rfl, rfl⟩
      intro h
      have h8 := h.2.2.2.2.2.2.2
      simp [h8, hpw] at hconf
    · rw [if_neg hconf, if_neg (by simp [hcalm 1])]
      left
      have hc2 : req.confirmPassword = req.password := by
        simpa [hpw] using hconf
      refine ⟨⟨hn, he, hp, by rw [hc2]; exact hp, hre, hfree, by omega, hc2⟩, rfl⟩

/-- C7, amended: when no record-store call rejects, `register` answers 201 exactly when
name, email, password and confirmation are present, the email matches the address
pattern, no stored account has an email equal to the lower-cased email of the request, the
trimmed password has at least 6 characters and the password equals the confirmation; it
then appends the new account (lower-cased email, hashed password, counter 0). In every
other case it answers 422 and leaves the store unchanged. On a store whose emails are all
in lower case, the condition on the stored emails is the case-insensitive comparison of
the claim. -/
theorem register_accepts_iff (L : Lib) (env : Env) (req : Req) (s : Store)
    (hcalm : ∀ k, env.dbFail k = false) :
    ((register L env req s).sends.map (·.status) = [201] ↔ registerAccepts L req s) ∧
    (registerAccepts L req s →
      (register L env req s).store
        = { s with users := s.users ++ [registeredUser L env req] }) ∧
    (¬ registerAccepts L req s →
      (register L env req s).sends.map (·.status) = [422] ∧
      (register L env req s).store = s) ∧
    ((∀ u ∈ s.users, L.toLowerCase u.email = u.email) →
      (registerAcceptsSpec L req s ↔ registerAccepts L req s)) := by
  refine ⟨?_, ?_, ?_, ?_⟩
  · rcases register_cases L env req s hcalm with ⟨ha, h⟩ | ⟨hna, h, _⟩
    · simp [h, reply, ha]
    · simp [h, hna]
  · intro ha
    rcases register_cases L env req s hcalm with ⟨_, h⟩ | ⟨hna, _, _⟩
    · rw [h]
      rfl
    · exact absurd ha hna
  · intro hna
    rcases register_cases L env req s hcalm with ⟨ha, _⟩ | ⟨_, h1, h2⟩
    · exact absurd ha hna
    · exact ⟨h1, h2⟩
  · intro hlow
    unfold registerAcceptsSpec registerAccepts
    have : (∀ u ∈ s.users, L.toLowerCase u.email ≠ L.toLowerCase (req.email.getD "")) ↔
        (∀ u ∈ s.users, u.email ≠ L.toLowerCase (req.email.getD "")) := by
      constructor
      · intro h u hu
        have := h u hu
        rwa [hlow u hu] at this
      · intro h u hu
        rw [hlow u hu]
        exact h u hu
    rw [this]

/-- The amended C7 on the registration of the scenario in the spec, on the empty
store. -/
theorem register_accepts_iff_witness :
    (register demoLib calmEnv registerAnn emptyStore).sends.map (·.status) = [201] ∧
    (register demoLib calmEnv registerAnn emptyStore).store.users.map (·.email)
      = ["ann@x.com"] := by
  have h := register_accepts_iff demoLib calmEnv registerAnn emptyStore (fun _ => rfl)
  have ha : registerAccepts demoLib registerAnn emptyStore := by decide
  exact ⟨h.1.mpr ha, by rw [h.2.1 ha]; decide⟩

/-! ## C8: stored emails -/

/-- C8 fails on the code: from the empty store, Ann registers, Bob registers, and Bob sets
his email to "ANN@X.COM" through `editUser`; all three requests succeed. `editUser` stores
the email as sent and compares it as sent, so the store then holds an email that is not in
lower case and two accounts whose emails are equal after case folding. -/
theorem editUser_stores_email_as_sent :
    (register demoLib calmEnv registerAnn emptyStore).sends.map (·.status) = [201] ∧
    (register demoLib calmEnv200 registerBob
      (runUserCalls demoLib [.register calmEnv registerAnn] emptyStore)).sends.map (·.status)
      = [201] ∧
    (editUser demoLib calmEnv bobTakesUpperAnn
      (runUserCalls demoLib [.register calmEnv registerAnn, .register calmEnv200 registerBob]
        emptyStore)).sends.map (·.status) = [200] ∧
    (runUserCalls demoLib annBobUpper emptyStore).users.map (·._id) = [100, 200] ∧
    (runUserCalls demoLib annBobUpper emptyStore).users.map (·.email)
      = ["ann@x.com", "ANN@X.COM"] ∧
    demoLib.toLowerCase "ANN@X.COM" ≠ "ANN@X.COM" ∧
    demoLib.toLowerCase "ANN@X.COM" = demoLib.toLowerCase "ann@x.com" := by
  decide

/-! ## C9: the password hash in responses -/

/-- C9 fails on the code for `editUser` and `changeAvatar`: both pass the document that
`findByIdAndUpdate` returns to `res.json` as it is. After a successful `editUser` the body
carries the newly computed hash, after a successful `changeAvatar` the stored one. -/
theorem editUser_changeAvatar_expose_hash :
    (editUser demoLib calmEnv bobNewPassword demoStore).sends
      = [⟨200, .user { _id := 2, name := "Bob", email := "bob@x.com",
                       password := .str (demoLib.hash "secret3" calmEnv.salt),
                       avatar := none, posts := 0 }⟩] ∧
    ((editUser demoLib calmEnv bobNewPassword demoStore).store.findUser 2).map (·.password)
      = some (demoLib.hash "secret3" calmEnv.salt) ∧
    (changeAvatar calmEnv avatarByAnn demoStore).sends.map (·.status) = [200] ∧
    (changeAvatar calmEnv avatarByAnn demoStore).sends.map
        (fun r => r.body.exposes "h(secret1)") = [true] ∧
    (demoStore.findUser 1).map (·.password) = some "h(secret1)" := by
  decide

/-- The part of C9 that holds: no response of `login` or `getProfile` carries a password
string, whatever the request, the store and the environment. -/
theorem login_getProfile_hide_hash (L : Lib) (env : Env) (req : Req) (s : Store)
    (h : String) :
    (∀ r ∈ (login L env req s).sends, r.body.exposes h = false) ∧
    (∀ r ∈ (getProfile env req s).sends, r.body.exposes h = false) := by
  constructor
  · unfold login
    split
    · simp [reply, Body.exposes]
    dsimp only
    split
    · simp [reply, Body.exposes]
    cases s.findUserByEmail (L.toLowerCase (req.email.getD "")) with
    | none => simp [reply, Body.exposes]
    | some u =>
      dsimp only
      split <;> simp [reply, Body.exposes, User.view]
  · unfold getProfile
    repeat' split
    all_goals simp [reply, Body.exposes, User.view]

/-! ## C10: the two ways a login fails -/

/-- C10: two login requests with non-empty email and password on the same store, the
first with an email that matches no account, the second with an email that matches an
account whose hash the password does not verify against. Both are answered with status 422
and the body `{error: "Invalid username or password"}`, the two responses are equal, and
neither sets a session cookie. -/
theorem login_failures_identical (L : Lib) (env1 env2 : Env) (req1 req2 : Req) (s : Store)
    (u : User)
    (he1 : truthy req1.email = true) (hp1 : truthy req1.password = true)
    (he2 : truthy req2.email = true) (hp2 : truthy req2.password = true)
    (hdb1 : env1.dbFail 0 = false) (hdb2 : env2.dbFail 0 = false)
    (hnone : s.findUserByEmail (L.toLowerCase (req1.email.getD "")) = none)
    (hsome : s.findUserByEmail (L.toLowerCase (req2.email.getD "")) = some u)
    (hwrong : L.compare (req2.password.getD "") u.password = false) :
    (login L env1 req1 s).sends = (login L env2 req2 s).sends ∧
    (login L env1 req1 s).sends = [⟨422, .error "Invalid username or password"⟩] ∧
    (login L env1 req1 s).cookie = none ∧ (login L env2 req2 s).cookie = none := by
  have h1 : login L env1 req1 s
      = reply s [.userFindOne (L.toLowerCase (req1.email.getD ""))] 422
          (.error "Invalid username or password") := by
    simp [login, he1, hp1, hdb1, hnone]
  have h2 : login L env2 req2 s
      = reply s [.userFindOne (L.toLowerCase (req2.email.getD ""))] 422
          (.error "Invalid username or password") := by
    simp [login, he2, hp2, hdb2, hsome, hwrong]
  rw [h1, h2]
  exact ⟨rfl, rfl, rfl, rfl⟩

/-- C10 on the store with Ann and Bob: an unknown email against Ann's email with a wrong
password. -/
theorem login_failures_identical_witness :
    (login demoLib calmEnv { email := some "nobody@x.com", password := some "secret1" }
        demoStore).sends
      = (login demoLib calmEnv { email := some "ann@x.com", password := some "wrong" }
          demoStore).sends ∧
    (login demoLib calmEnv { email := some "nobody@x.com", password := some "secret1" }
        demoStore).sends = [⟨422, .error "Invalid username or password"⟩] :=
  ⟨(login_failures_identical demoLib calmEnv calmEnv
      { email := some "nobody@x.com", password := some "secret1" }
      { email := some "ann@x.com", password := some "wrong" } demoStore
      { _id := 1, name := "Ann", email := "ann@x.com", password := "h(secret1)",
        avatar := some { public_id := "avatar-old", url := "https://cdn.example/a" },
        posts := 1 }
      (by decide) (by decide) (by decide) (by decide) rfl rfl (by decide) (by decide)
      (by decide)).1,
   (login_failures_identical demoLib calmEnv calmEnv
      { email := some "nobody@x.com", password := some "secret1" }
      { email := some "ann@x.com", password := some "wrong" } demoStore
      { _id := 1, name := "Ann", email := "ann@x.com", password := "h(secret1)",
        avatar := some { public_id := "avatar-old", url := "https://cdn.example/a" },
        posts := 1 }
      (by decide) (by decide) (by decide) (by decide) rfl rfl (by decide) (by decide)
      (by decide)).2.1⟩

/-! ## C11: the responses of `getProfile` -/

/-- What `getProfile` sends when the lookup does not reject: for an `_id` that matches an
account, one response, 200 with the account without its password; for an `_id` that
matches none, the 404 and then two more `json` calls on the same response. -/
theorem getProfile_sends (env : Env) (req : Req) (s : Store) (id : Nat)
    (hid : req.id = some id) (hdb : env.dbFail 0 = false) :
    (∀ user, s.findUser id = some user →
      (getProfile env req s).sends = [⟨200, .user (user.view .absent)⟩]) ∧
    (s.findUser id = none →
      (getProfile env req s).sends
        = [⟨404, .error "User not found"⟩, ⟨200, .null⟩,
           ⟨500, .error "Internal server error"⟩]) := by
  constructor
  · intro user hu
    simp [getProfile, hid, hdb, hu, reply]
  · intro hnone
    simp [getProfile, hid, hdb, hnone]

/-- C11 fails on the code for an `_id` that matches no account: `getProfile` asks for
account 9 of a store that holds accounts 1 and 2. The 404 is sent, and since the handler
does not return there it calls `res.status(200).json(user)` and, from the `catch` block,
`res.status(500).json(..)`: three sends are attempted, not one. For account 1 there is one
response, 200. -/
theorem getProfile_unknown_id_keeps_sending :
    demoStore.findUser 9 = none ∧
    (getProfile calmEnv { id := some 9 } demoStore).sends.map (·.status) = [404, 200, 500] ∧
    (getProfile calmEnv { id := some 9 } demoStore).sends.length ≠ 1 ∧
    (getProfile calmEnv { id := some 1 } demoStore).sends.map (·.status) = [200] := by
  decide

/-! ## C12: requests without the expected file -/

/-- The part of C12 that holds: a `createPost` request without a thumbnail and a
`changeAvatar` request without an avatar touch neither store, and they are answered 422
when `createPost` has no `req.files` at all and when `changeAvatar` has a `req.files`
without `avatar`. -/
theorem missing_file_touches_nothing (env : Env) (req : Req) (s : Store) :
    (req.files.bind (fun f => f.thumbnail) = none →
      (createPost env req s).store = s ∧ (createPost env req s).trace = [] ∧
      (req.files = none → (createPost env req s).sends.map (·.status) = [422])) ∧
    (req.files.bind (fun f => f.avatar) = none →
      (changeAvatar env req s).store = s ∧ (changeAvatar env req s).trace = [] ∧
      (∀ files, req.files = some files →
        (changeAvatar env req s).sends.map (·.status) = [422])) := by
  constructor
  · intro hno
    unfold createPost
    split
    · refine ⟨rfl, rfl, fun _ => rfl⟩
    · rename_i hv
      rw [hno]
      refine ⟨rfl, rfl, ?_⟩
      intro hnone
      simp [hnone] at hv
  · intro hno
    unfold changeAvatar
    cases hf : req.files with
    | none => exact ⟨rfl, rfl, fun files h => by cases h⟩
    | some files =>
      have ha : files.avatar = none := by simpa [hf] using hno
      simp only [ha]
      exact ⟨rfl, rfl, fun _ _ => rfl⟩

/-- C12 fails on the code in two of its four cases. `createPost` with valid fields and a
file under another field name only: `req.files` passes the check, `thumbnail` is
`undefined`, reading `thumbnail.size` throws and the answer is 500. `changeAvatar` with no
files at all: reading `req.files.avatar` throws and the answer is 500. In the other two
cases the answer is 422. No store is touched in any of the four. -/
theorem missing_file_answered_500 :
    createWithoutThumbnail.files.bind (fun f => f.thumbnail) = none ∧
    createPost calmEnv createWithoutThumbnail demoStore
      = reply demoStore [] 500 (.error "Internal server error") ∧
    avatarWithoutFiles.files = none ∧
    changeAvatar calmEnv avatarWithoutFiles demoStore
      = reply demoStore [] 500 (.error "Internal server error") ∧
    createPost calmEnv { createByAnn with files := none } demoStore
      = reply demoStore [] 422 (.error "Fill all the fields and choose thumbnail") ∧
    changeAvatar calmEnv
        { user := 1,
          files := some { thumbnail := some { size := 10000, data := "img" },
                          avatar := none } } demoStore
      = reply demoStore [] 422 (.error "Please choose an image") := by
  decide

end Blog
